import Mathlib

/-
  Shallow embedding of the media lifecycle subsystem and the authorization
  firewall of the recipe-book API.

  Embedded sources:
  - the media middleware (sanitize sweep and multer diskStorage callbacks),
  - the recipe and user controllers (media mutation handlers, read handlers),
  - the recipe router (route table and authConfig).

  The record services (recipeService, userService, mediaService), the
  checkUploader service call and the authFw middleware are not among the
  analysed sources; where a claim depends on them they are modelled from the
  specification and their doc comments start with `Modelled from the spec:`.
-/

namespace RecipeBook

/-- Result of a service call: an HTTP-style status plus an opaque payload
(the JSON body is not interpreted by any property proved here). -/
structure SvcResult where
  status : Nat
  data : Nat
deriving DecidableEq

/-- Global state seen by the media subsystem: the entity records (the
Ledger; `none` when the entity does not exist, otherwise its media filename
list) and the per-entity media directory contents on disk (the Store). -/
structure World where
  ledger : String → Option (List String)
  disk : String → List String

/-- A staged upload as the controllers see it: the client-supplied name
(`file.originalname`) and the name assigned at staging time (`file.unique`). -/
structure StagedFile where
  originalname : String
  unique : String
deriving DecidableEq

/-- The `req.files` object the upload middleware hands to the controllers:
`req.files.cleared` is the list of files that survived sanitization. -/
structure Files where
  cleared : List StagedFile
deriving DecidableEq

/-- Session state attached to a request: `isAuth` is `none` while the field
is unset (`undefined` in the source), `username` is set at sign-in. -/
structure Session where
  isAuth : Option Bool
  username : Option String
deriving DecidableEq

/-- The request fields read by the embedded handlers and middleware. -/
structure Request where
  id : String
  filename : String
  session : Session
  files : Files
deriving DecidableEq

/-- A service call in state-passing form over `World`. -/
abbrev Svc := World → SvcResult × World

/-- The observable service calls a handler makes, in order. -/
inductive Event where
  | ledgerCall (id : String)
  | storeSet (id : String) (overwrite : Bool)
  | storeUnset (id : String)
deriving DecidableEq

/-- The entity-record (Ledger) operations of the recipe service that the
recipe media handlers call. -/
structure RecipeLedger where
  setMedia : String → List StagedFile → Svc
  resetMedia : String → List StagedFile → Svc
  unsetMedia : String → Svc

/-- The entity-record (Ledger) operations of the user service that the user
media handlers call (a user record carries at most one media filename). -/
structure UserLedger where
  setMedia : String → String → Svc
  resetMedia : String → String → Svc
  unsetMedia : String → Svc

/-- The disk (Store) operations of the media service. -/
structure MediaServices where
  set : String → Files → Bool → Svc
  unset : String → Svc

/-- The expression `req.files.cleared[0] ? req.files.cleared[0].unique : ''`
of the user media handlers. -/
def firstUnique (files : Files) : String :=
  match files.cleared with
  | [] => ""
  | f :: _ => f.unique

/-- Attach handler for recipes (recipe controller `postRecipeMedia`): update
the recipe record with the cleared filenames; only when that call succeeds
defer to the media service to save the files to the disk. -/
def postRecipeMedia (rs : RecipeLedger) (ms : MediaServices)
    (id : String) (files : Files) (w : World) :
    (Nat × Nat) × World × List Event :=
  let t := rs.setMedia id files.cleared w
  if t.1.status ≠ 200 then
    ((t.1.status, t.1.data), t.2, [Event.ledgerCall id])
  else
    let r := ms.set id files false t.2
    ((r.1.status, r.1.data), r.2, [Event.ledgerCall id, Event.storeSet id false])

/-- Replace handler for recipes (recipe controller `putRecipeMedia`). -/
def putRecipeMedia (rs : RecipeLedger) (ms : MediaServices)
    (id : String) (files : Files) (w : World) :
    (Nat × Nat) × World × List Event :=
  let t := rs.resetMedia id files.cleared w
  if t.1.status ≠ 200 then
    ((t.1.status, t.1.data), t.2, [Event.ledgerCall id])
  else
    let r := ms.set id files true t.2
    ((r.1.status, r.1.data), r.2, [Event.ledgerCall id, Event.storeSet id true])

/-- Remove handler for recipes (recipe controller `deleteRecipeMedia`). -/
def deleteRecipeMedia (rs : RecipeLedger) (ms : MediaServices)
    (id : String) (w : World) :
    (Nat × Nat) × World × List Event :=
  let t := rs.unsetMedia id w
  if t.1.status ≠ 200 then
    ((t.1.status, t.1.data), t.2, [Event.ledgerCall id])
  else
    let r := ms.unset id t.2
    ((r.1.status, r.1.data), r.2, [Event.ledgerCall id, Event.storeUnset id])

/-- Attach handler for users (user controller `postUserMedia`): the single
filename is the unique name of the first cleared file, or the empty string
when no file survived. -/
def postUserMedia (us : UserLedger) (ms : MediaServices)
    (id : String) (files : Files) (w : World) :
    (Nat × Nat) × World × List Event :=
  let t := us.setMedia id (firstUnique files) w
  if t.1.status ≠ 200 then
    ((t.1.status, t.1.data), t.2, [Event.ledgerCall id])
  else
    let r := ms.set id files false t.2
    ((r.1.status, r.1.data), r.2, [Event.ledgerCall id, Event.storeSet id false])

/-- Replace handler for users (user controller `putUserMedia`). -/
def putUserMedia (us : UserLedger) (ms : MediaServices)
    (id : String) (files : Files) (w : World) :
    (Nat × Nat) × World × List Event :=
  let t := us.resetMedia id (firstUnique files) w
  if t.1.status ≠ 200 then
    ((t.1.status, t.1.data), t.2, [Event.ledgerCall id])
  else
    let r := ms.set id files true t.2
    ((r.1.status, r.1.data), r.2, [Event.ledgerCall id, Event.storeSet id true])

/-- Remove handler for users (user controller `deleteUserMedia`). -/
def deleteUserMedia (us : UserLedger) (ms : MediaServices)
    (id : String) (w : World) :
    (Nat × Nat) × World × List Event :=
  let t := us.unsetMedia id w
  if t.1.status ≠ 200 then
    ((t.1.status, t.1.data), t.2, [Event.ledgerCall id])
  else
    let r := ms.unset id t.2
    ((r.1.status, r.1.data), r.2, [Event.ledgerCall id, Event.storeUnset id])

/-- Read handler `getAllRecipes`: forwards the recipe service fetch result
(the payload is opaque here; the versioning-field stripping acts only inside
that payload). It never reads the session. -/
def getAllRecipes (fetch : SvcResult) (req : Request) : Nat × Nat :=
  (fetch.status, fetch.data)

/-- Read handler `getRecipeById`: fetches by `req.params.id` and forwards
the result. It never reads the session. -/
def getRecipeById (fetchById : String → SvcResult) (req : Request) : Nat × Nat :=
  let r := fetchById req.id
  (r.status, r.data)

/-- Read handler `getRecipeMedia`: fetches the file by id and filename; on
success the content type is derived from the filename segment after the
first dot. It never reads the session. -/
def getRecipeMedia (fetchMedia : String → String → SvcResult) (req : Request) :
    Nat × Nat × Option String :=
  let r := fetchMedia req.id req.filename
  if r.status ≠ 200 then (r.status, r.data, none)
  else
    let t := if (req.filename.splitOn ".").get? 1 = some "png" then "png" else "jpeg"
    (r.status, r.data, some ("image/" ++ t))

/-- Destination callback of the multer diskStorage in the media middleware:
`path.join('media', req.params.id)`. -/
def storageDestination (req : Request) (file : StagedFile) : String :=
  "media/" ++ req.id

/-- Filename callback of the multer diskStorage in the media middleware:
the file is stored under `file.originalname`, the client-supplied name. -/
def storageFilename (req : Request) (file : StagedFile) : String :=
  file.originalname

/-- A file of a holding directory: name, content bytes, permission bits. -/
structure FsFile where
  name : String
  content : List Nat
  perm : Nat
deriving DecidableEq

/-- The sanitize sweep of the media middleware over a directory listing:
classify each file's bytes (the `file-type` module is the `classify`
parameter); when the classification is absent or its MIME type fails the
filter the file is removed, otherwise it is chmod-ed to 0644 and kept.
The result is the directory contents after the sweep. -/
def sanitize (classify : List Nat → Option String) (filter : String → Bool)
    (dir : List FsFile) : List FsFile :=
  dir.filterMap fun f =>
    match classify f.content with
    | none => none
    | some mime => if filter mime then some { f with perm := 0o644 } else none

/-- The value the `sanitize` function of the media middleware resolves with:
its body contains no return statement, so the caller receives `undefined`
rather than a list of surviving filenames. -/
def sanitizeReturn (classify : List Nat → Option String) (filter : String → Bool)
    (dir : List FsFile) : Option (List String) :=
  none

/-- Modelled from the spec: `recipeService.checkUploader` (the services
module is not among the analysed sources). Compares the session username
with the recipe's recorded uploader: 0 on match, 1 on mismatch, and the
distinct not-found status 2 when the recipe does not exist. -/
def checkUploader (owners : String → Option String) (id : String)
    (username : Option String) : Nat :=
  match owners id with
  | none => 2
  | some owner => if username = some owner then 0 else 1

/-- Per-route authorization configuration (recipe router `authConfig`): the
unauthenticated check, the ownership check, and the optional mode flag
(`mode: 1` marks a creation route; spreading `authConfig` without a mode
leaves it unset). -/
structure AuthConfig where
  unauthorized : Request → Bool
  forbidden : Request → Bool
  mode : Option Nat

/-- The `authConfig` value of the recipe router, parameterized by the
recorded-owner lookup consumed from the persistence collaborator:
`unauthorized` fires when `req.session.isAuth` is unset, `forbidden` fires
when `checkUploader` reports status 1. -/
def authConfig (owners : String → Option String) : AuthConfig where
  unauthorized := fun req => req.session.isAuth.isNone
  forbidden := fun req => checkUploader owners req.id req.session.username == 1
  mode := none

/-- Decision of the firewall middleware: pass the request on, or deny. -/
inductive FwOutcome where
  | next
  | denied (status : Nat)
deriving DecidableEq

/-- Modelled from the spec: the `authFw` middleware (not among the analysed
sources), following the specified algorithm: deny 401 when the
unauthenticated check fires; otherwise allow without any ownership lookup in
creation mode; otherwise deny 403 exactly when the ownership check reports a
mismatch. The Bool records whether the ownership check ran. -/
def authFw (cfg : AuthConfig) (req : Request) : FwOutcome × Bool :=
  if cfg.unauthorized req then (FwOutcome.denied 401, false)
  else if cfg.mode = some 1 then (FwOutcome.next, false)
  else if cfg.forbidden req then (FwOutcome.denied 403, true)
  else (FwOutcome.next, true)

/-- Middleware tags appearing in the recipe route table. -/
inductive Middleware where
  | authFw (mode : Option Nat)
  | bounce
deriving DecidableEq

/-- A mounted route: HTTP method, path, middleware chain before the handler. -/
structure Route where
  method : String
  path : String
  middleware : List Middleware
deriving DecidableEq

/-- The recipe router table (recipe routes file), media routes included:
the three GET routes carry no middleware at all; the mutating routes carry
the firewall, and the upload routes additionally the bounce gate. -/
def recipeRouterRoutes : List Route :=
  [ ⟨"GET", "/", []⟩,
    ⟨"GET", "/:id", []⟩,
    ⟨"POST", "/", [Middleware.authFw (some 1)]⟩,
    ⟨"PUT", "/:id", [Middleware.authFw none]⟩,
    ⟨"DELETE", "/:id", [Middleware.authFw none]⟩,
    ⟨"GET", "/:id/media/:filename", []⟩,
    ⟨"POST", "/:id/media", [Middleware.authFw none, Middleware.bounce]⟩,
    ⟨"PUT", "/:id/media", [Middleware.authFw none, Middleware.bounce]⟩,
    ⟨"DELETE", "/:id/media", [Middleware.authFw none]⟩ ]

/-- Modelled from the spec: `recipeService.setMedia` (Attach transition of
the media state machine; the services module is not among the analysed
sources). Not-found when the entity is absent, conflict when media is
already attached, unsupported-type when zero files survived sanitization,
otherwise the record's media list becomes the staged unique names. -/
def recipeServiceSetMedia (id : String) (files : List StagedFile) : Svc := fun w =>
  match w.ledger id with
  | none => (⟨404, 0⟩, w)
  | some media =>
    if media = [] then
      if files = [] then (⟨415, 0⟩, w)
      else (⟨200, 0⟩,
        { w with ledger := fun j =>
            if j = id then some (files.map StagedFile.unique) else w.ledger j })
    else (⟨409, 0⟩, w)

/-- Modelled from the spec: `recipeService.resetMedia` (Replace transition).
Not-found when the entity is absent or its media state is empty,
unsupported-type when zero files survived, otherwise the record's media
list becomes the staged unique names. -/
def recipeServiceResetMedia (id : String) (files : List StagedFile) : Svc := fun w =>
  match w.ledger id with
  | none => (⟨404, 0⟩, w)
  | some media =>
    if media = [] then (⟨404, 0⟩, w)
    else if files = [] then (⟨415, 0⟩, w)
    else (⟨200, 0⟩,
      { w with ledger := fun j =>
          if j = id then some (files.map StagedFile.unique) else w.ledger j })

/-- Modelled from the spec: `recipeService.unsetMedia` (Remove transition).
Not-found when the entity is absent or its media state is empty, otherwise
the record's media list is cleared. -/
def recipeServiceUnsetMedia (id : String) : Svc := fun w =>
  match w.ledger id with
  | none => (⟨404, 0⟩, w)
  | some media =>
    if media = [] then (⟨404, 0⟩, w)
    else (⟨200, 0⟩,
      { w with ledger := fun j => if j = id then some [] else w.ledger j })

/-- Modelled from the spec: `userService.setMedia` (Attach transition for a
user record; the empty string encodes the absence of a surviving file). -/
def userServiceSetMedia (id : String) (filename : String) : Svc := fun w =>
  match w.ledger id with
  | none => (⟨404, 0⟩, w)
  | some media =>
    if media = [] then
      if filename = "" then (⟨415, 0⟩, w)
      else (⟨200, 0⟩,
        { w with ledger := fun j => if j = id then some [filename] else w.ledger j })
    else (⟨409, 0⟩, w)

/-- Modelled from the spec: `userService.resetMedia` (Replace transition for
a user record). -/
def userServiceResetMedia (id : String) (filename : String) : Svc := fun w =>
  match w.ledger id with
  | none => (⟨404, 0⟩, w)
  | some media =>
    if media = [] then (⟨404, 0⟩, w)
    else if filename = "" then (⟨415, 0⟩, w)
    else (⟨200, 0⟩,
      { w with ledger := fun j => if j = id then some [filename] else w.ledger j })

/-- Modelled from the spec: `userService.unsetMedia` (Remove transition for
a user record). -/
def userServiceUnsetMedia (id : String) : Svc := fun w =>
  match w.ledger id with
  | none => (⟨404, 0⟩, w)
  | some media =>
    if media = [] then (⟨404, 0⟩, w)
    else (⟨200, 0⟩,
      { w with ledger := fun j => if j = id then some [] else w.ledger j })

/-- Modelled from the spec: `mediaService.set` (Store write; with the
overwrite flag the old directory contents are deleted first). -/
def mediaServiceSet (id : String) (files : Files) (overwrite : Bool) : Svc := fun w =>
  (⟨200, 0⟩,
   { w with disk := fun j =>
       if j = id then
         (if overwrite then [] else w.disk j) ++ files.cleared.map StagedFile.unique
       else w.disk j })

/-- Modelled from the spec: `mediaService.unset` (Store delete of every file
of the entity's media directory). -/
def mediaServiceUnset (id : String) : Svc := fun w =>
  (⟨200, 0⟩, { w with disk := fun j => if j = id then [] else w.disk j })

/-- The bundled recipe-record service. -/
def recipeService : RecipeLedger :=
  ⟨recipeServiceSetMedia, recipeServiceResetMedia, recipeServiceUnsetMedia⟩

/-- The bundled user-record service. -/
def userService : UserLedger :=
  ⟨userServiceSetMedia, userServiceResetMedia, userServiceUnsetMedia⟩

/-- The bundled media (Store) service. -/
def mediaService : MediaServices := ⟨mediaServiceSet, mediaServiceUnset⟩

/-- A world with no entity records and empty disk. -/
def worldNone : World := ⟨fun _ => none, fun _ => []⟩

/-- A world where every entity exists with empty media state. -/
def worldEmptyMedia : World := ⟨fun _ => some [], fun _ => []⟩

/-- A world where every entity exists with one attached media file. -/
def worldAttached : World := ⟨fun _ => some ["m.png"], fun _ => ["m.png"]⟩

/-- A concrete authenticated request from user alice. -/
def reqAlice : Request := ⟨"r1", "", ⟨some true, some "alice"⟩, ⟨[]⟩⟩

/-- The recipe-record Attach call never touches the disk component. -/
theorem recipeServiceSetMedia_disk (i : String) (f : List StagedFile) (w : World) :
    ((recipeServiceSetMedia i f w).2).disk = w.disk := by
  unfold recipeServiceSetMedia
  cases w.ledger i with
  | none => rfl
  | some media => by_cases h1 : media = [] <;> by_cases h2 : f = [] <;> simp [h1, h2]

/-- The recipe-record Replace call never touches the disk component. -/
theorem recipeServiceResetMedia_disk (i : String) (f : List StagedFile) (w : World) :
    ((recipeServiceResetMedia i f w).2).disk = w.disk := by
  unfold recipeServiceResetMedia
  cases w.ledger i with
  | none => rfl
  | some media => by_cases h1 : media = [] <;> by_cases h2 : f = [] <;> simp [h1, h2]

/-- The recipe-record Remove call never touches the disk component. -/
theorem recipeServiceUnsetMedia_disk (i : String) (w : World) :
    ((recipeServiceUnsetMedia i w).2).disk = w.disk := by
  unfold recipeServiceUnsetMedia
  cases w.ledger i with
  | none => rfl
  | some media => by_cases h1 : media = [] <;> simp [h1]

/-- The user-record Attach call never touches the disk component. -/
theorem userServiceSetMedia_disk (i : String) (s : String) (w : World) :
    ((userServiceSetMedia i s w).2).disk = w.disk := by
  unfold userServiceSetMedia
  cases w.ledger i with
  | none => rfl
  | some media => by_cases h1 : media = [] <;> by_cases h2 : s = "" <;> simp [h1, h2]

/-- The user-record Replace call never touches the disk component. -/
theorem userServiceResetMedia_disk (i : String) (s : String) (w : World) :
    ((userServiceResetMedia i s w).2).disk = w.disk := by
  unfold userServiceResetMedia
  cases w.ledger i with
  | none => rfl
  | some media => by_cases h1 : media = [] <;> by_cases h2 : s = "" <;> simp [h1, h2]

/-- The user-record Remove call never touches the disk component. -/
theorem userServiceUnsetMedia_disk (i : String) (w : World) :
    ((userServiceUnsetMedia i w).2).disk = w.disk := by
  unfold userServiceUnsetMedia
  cases w.ledger i with
  | none => rfl
  | some media => by_cases h1 : media = [] <;> simp [h1]

/-- C1: in every media mutation handler (Attach, Replace, Remove, for
recipes and for users) the entity-record (Ledger) service call is the first
call made, any Store call comes strictly after it, and whenever the Ledger
call reports a non-success status the handler returns at once: its event
trace holds no Store call and the disk state is unchanged (given that the
record services do not touch the disk, which holds of their interface). -/
theorem c1_ledger_before_store
    (rs : RecipeLedger) (us : UserLedger) (ms : MediaServices)
    (id : String) (files : Files) (w : World)
    (hset : ∀ i f v, ((rs.setMedia i f v).2).disk = v.disk)
    (hreset : ∀ i f v, ((rs.resetMedia i f v).2).disk = v.disk)
    (hunset : ∀ i v, ((rs.unsetMedia i v).2).disk = v.disk)
    (huset : ∀ i s v, ((us.setMedia i s v).2).disk = v.disk)
    (hureset : ∀ i s v, ((us.resetMedia i s v).2).disk = v.disk)
    (huunset : ∀ i v, ((us.unsetMedia i v).2).disk = v.disk) :
    ((postRecipeMedia rs ms id files w).2.2
        = Event.ledgerCall id ::
          (if (rs.setMedia id files.cleared w).1.status ≠ 200 then []
           else [Event.storeSet id false])
      ∧ ((rs.setMedia id files.cleared w).1.status ≠ 200 →
          (postRecipeMedia rs ms id files w).2.1.disk = w.disk))
    ∧ ((putRecipeMedia rs ms id files w).2.2
        = Event.ledgerCall id ::
          (if (rs.resetMedia id files.cleared w).1.status ≠ 200 then []
           else [Event.storeSet id true])
      ∧ ((rs.resetMedia id files.cleared w).1.status ≠ 200 →
          (putRecipeMedia rs ms id files w).2.1.disk = w.disk))
    ∧ ((deleteRecipeMedia rs ms id w).2.2
        = Event.ledgerCall id ::
          (if (rs.unsetMedia id w).1.status ≠ 200 then []
           else [Event.storeUnset id])
      ∧ ((rs.unsetMedia id w).1.status ≠ 200 →
          (deleteRecipeMedia rs ms id w).2.1.disk = w.disk))
    ∧ ((postUserMedia us ms id files w).2.2
        = Event.ledgerCall id ::
          (if (us.setMedia id (firstUnique files) w).1.status ≠ 200 then []
           else [Event.storeSet id false])
      ∧ ((us.setMedia id (firstUnique files) w).1.status ≠ 200 →
          (postUserMedia us ms id files w).2.1.disk = w.disk))
    ∧ ((putUserMedia us ms id files w).2.2
        = Event.ledgerCall id ::
          (if (us.resetMedia id (firstUnique files) w).1.status ≠ 200 then []
           else [Event.storeSet id true])
      ∧ ((us.resetMedia id (firstUnique files) w).1.status ≠ 200 →
          (putUserMedia us ms id files w).2.1.disk = w.disk))
    ∧ ((deleteUserMedia us ms id w).2.2
        = Event.ledgerCall id ::
          (if (us.unsetMedia id w).1.status ≠ 200 then []
           else [Event.storeUnset id])
      ∧ ((us.unsetMedia id w).1.status ≠ 200 →
          (deleteUserMedia us ms id w).2.1.disk = w.disk)) := by
  refine ⟨⟨?_, ?_⟩, ⟨?_, ?_⟩, ⟨?_, ?_⟩, ⟨?_, ?_⟩, ⟨?_, ?_⟩, ⟨?_, ?_⟩⟩
  · by_cases h : (rs.setMedia id files.cleared w).1.status = 200 <;>
      simp [postRecipeMedia, h]
  · intro h; simp [postRecipeMedia, h, hset]
  · by_cases h : (rs.resetMedia id files.cleared w).1.status = 200 <;>
      simp [putRecipeMedia, h]
  · intro h; simp [putRecipeMedia, h, hreset]
  · by_cases h : (rs.unsetMedia id w).1.status = 200 <;>
      simp [deleteRecipeMedia, h]
  · intro h; simp [deleteRecipeMedia, h, hunset]
  · by_cases h : (us.setMedia id (firstUnique files) w).1.status = 200 <;>
      simp [postUserMedia, h]
  · intro h; simp [postUserMedia, h, huset]
  · by_cases h : (us.resetMedia id (firstUnique files) w).1.status = 200 <;>
      simp [putUserMedia, h]
  · intro h; simp [putUserMedia, h, hureset]
  · by_cases h : (us.unsetMedia id w).1.status = 200 <;>
      simp [deleteUserMedia, h]
  · intro h; simp [deleteUserMedia, h, huunset]

/-- C1 witness: with the modelled services and an absent entity the Attach
handler's Ledger call fails (404) and the disk is left unchanged. -/
theorem c1_ledger_before_store_witness :
    (recipeService.setMedia "r1" (Files.mk []).cleared worldNone).1.status ≠ 200 ∧
    (postRecipeMedia recipeService mediaService "r1" ⟨[]⟩ worldNone).2.1.disk
      = worldNone.disk :=
  ⟨by decide,
   (c1_ledger_before_store recipeService userService mediaService "r1" ⟨[]⟩ worldNone
      recipeServiceSetMedia_disk recipeServiceResetMedia_disk recipeServiceUnsetMedia_disk
      userServiceSetMedia_disk userServiceResetMedia_disk
      userServiceUnsetMedia_disk).1.2 (by decide)⟩

/-- C5: Attach on an entity whose media state is Attached (non-empty media
list) fails with 409 and leaves the whole world — the Ledger entry and the
on-disk files — unchanged, for the recipe handler and the user handler. -/
theorem c5_attach_on_attached_conflict (w : World) (id : String) (files : Files)
    (media : List String) (hl : w.ledger id = some media) (hm : media ≠ []) :
    postRecipeMedia recipeService mediaService id files w
      = ((409, 0), w, [Event.ledgerCall id])
    ∧ postUserMedia userService mediaService id files w
      = ((409, 0), w, [Event.ledgerCall id]) := by
  constructor <;>
    simp [postRecipeMedia, postUserMedia, recipeService, userService,
      recipeServiceSetMedia, userServiceSetMedia, hl, hm]

/-- C5 witness: the conflict at a concrete attached world. -/
theorem c5_attach_on_attached_conflict_witness :
    postRecipeMedia recipeService mediaService "r1" ⟨[]⟩ worldAttached
      = ((409, 0), worldAttached, [Event.ledgerCall "r1"]) :=
  (c5_attach_on_attached_conflict worldAttached "r1" ⟨[]⟩ ["m.png"] rfl
    (by decide)).1

/-- C6: Replace and Remove on an entity whose media state is Empty fail with
404 and perform no disk mutation — the world is returned unchanged — for
the recipe handlers and the user handlers. -/
theorem c6_replace_remove_on_empty_missing (w : World) (id : String) (files : Files)
    (hl : w.ledger id = some []) :
    putRecipeMedia recipeService mediaService id files w
      = ((404, 0), w, [Event.ledgerCall id])
    ∧ deleteRecipeMedia recipeService mediaService id w
      = ((404, 0), w, [Event.ledgerCall id])
    ∧ putUserMedia userService mediaService id files w
      = ((404, 0), w, [Event.ledgerCall id])
    ∧ deleteUserMedia userService mediaService id w
      = ((404, 0), w, [Event.ledgerCall id]) := by
  refine ⟨?_, ?_, ?_, ?_⟩ <;>
    simp [putRecipeMedia, deleteRecipeMedia, putUserMedia, deleteUserMedia,
      recipeService, userService, recipeServiceResetMedia, recipeServiceUnsetMedia,
      userServiceResetMedia, userServiceUnsetMedia, hl]

/-- C6 witness: the state-missing failure at a concrete empty-media world. -/
theorem c6_replace_remove_on_empty_missing_witness :
    deleteRecipeMedia recipeService mediaService "r1" worldEmptyMedia
      = ((404, 0), worldEmptyMedia, [Event.ledgerCall "r1"]) :=
  (c6_replace_remove_on_empty_missing worldEmptyMedia "r1" ⟨[]⟩ rfl).2.1

/-- C7: an Attach in which zero uploaded files survived sanitization (empty
cleared list) reports a non-success status and changes nothing: it is never
a success with an empty media attachment, for recipes and for users. -/
theorem c7_attach_zero_survivors_fails (w : World) (id : String) (files : Files)
    (hc : files.cleared = []) :
    (postRecipeMedia recipeService mediaService id files w).1.1 ≠ 200
    ∧ (postRecipeMedia recipeService mediaService id files w).2.1 = w
    ∧ (postUserMedia userService mediaService id files w).1.1 ≠ 200
    ∧ (postUserMedia userService mediaService id files w).2.1 = w := by
  have hf : firstUnique files = "" := by simp [firstUnique, hc]
  cases hw : w.ledger id with
  | none =>
    refine ⟨?_, ?_, ?_, ?_⟩ <;>
      simp [postRecipeMedia, postUserMedia, recipeService, userService,
        recipeServiceSetMedia, userServiceSetMedia, hw]
  | some media =>
    cases media with
    | nil =>
      refine ⟨?_, ?_, ?_, ?_⟩ <;>
        simp [postRecipeMedia, postUserMedia, recipeService, userService,
          recipeServiceSetMedia, userServiceSetMedia, hw, hc, hf]
    | cons a l =>
      refine ⟨?_, ?_, ?_, ?_⟩ <;>
        simp [postRecipeMedia, postUserMedia, recipeService, userService,
          recipeServiceSetMedia, userServiceSetMedia, hw]

/-- C7 witness: the zero-survivor Attach failure at a concrete empty-media
world. -/
theorem c7_attach_zero_survivors_fails_witness :
    (Files.mk []).cleared = [] ∧
    (postRecipeMedia recipeService mediaService "r1" ⟨[]⟩ worldEmptyMedia).1.1 ≠ 200 :=
  ⟨rfl, (c7_attach_zero_survivors_fails worldEmptyMedia "r1" ⟨[]⟩ rfl).1⟩

/-- C2: the firewall first runs the unauthenticated check and denies with
401 whatever the mode is, without running the ownership lookup; an
authenticated request in creation mode is allowed with no ownership lookup;
an authenticated request in ownership mode on an existing resource is
denied with 403 exactly when the session username differs from the recorded
owner, and allowed when they are equal. -/
theorem c2_authFw_evaluation (owners : String → Option String) (req : Request)
    (mode : Option Nat) (owner : String) (hown : owners req.id = some owner) :
    (req.session.isAuth = none →
        authFw { authConfig owners with mode := mode } req
          = (FwOutcome.denied 401, false)) ∧
    (req.session.isAuth ≠ none →
        authFw { authConfig owners with mode := some 1 } req
          = (FwOutcome.next, false) ∧
        authFw (authConfig owners) req
          = (if req.session.username = some owner then (FwOutcome.next, true)
             else (FwOutcome.denied 403, true))) := by
  constructor
  · intro h
    simp [authFw, authConfig, h]
  · intro h
    obtain ⟨b, hb⟩ := Option.ne_none_iff_exists'.mp h
    constructor
    · simp [authFw, authConfig, hb]
    · by_cases hu : req.session.username = some owner <;>
        simp [authFw, authConfig, hb, checkUploader, hown, hu]

/-- C2 witness: an authenticated request by the recorded owner is allowed in
ownership mode. -/
theorem c2_authFw_evaluation_witness :
    authFw (authConfig (fun _ => some "alice")) reqAlice
      = (if reqAlice.session.username = some "alice" then (FwOutcome.next, true)
         else (FwOutcome.denied 403, true)) :=
  ((c2_authFw_evaluation (fun _ => some "alice") reqAlice none "alice" rfl).2
    (by decide)).2

/-- C9 counterexample: for an authenticated session and an absent target
resource the firewall runs the ownership check and then allows the request:
it surfaces no not-found outcome of its own, refuting the claim that the
evaluation never results in an allow in that case. -/
theorem c9_counterexample :
    authFw (authConfig (fun _ => none))
        ⟨"r1", "", ⟨some true, some "alice"⟩, ⟨[]⟩⟩ = (FwOutcome.next, true) := rfl

/-- C9 (amended): when the target resource does not exist, the ownership
check reports the distinct not-found status 2, which is not the mismatch
status 1, so the firewall never denies with 403 there — instead it allows
and leaves the not-found to be surfaced by the downstream handler. -/
theorem c9_owner_not_found_allows (owners : String → Option String) (req : Request)
    (hauth : req.session.isAuth ≠ none) (hnf : owners req.id = none) :
    authFw (authConfig owners) req = (FwOutcome.next, true)
    ∧ checkUploader owners req.id req.session.username = 2 := by
  obtain ⟨b, hb⟩ := Option.ne_none_iff_exists'.mp hauth
  constructor
  · simp [authFw, authConfig, hb, checkUploader, hnf]
  · simp [checkUploader, hnf]

/-- C9 (amended) witness: the allow at a concrete authenticated request on
an absent resource. -/
theorem c9_owner_not_found_allows_witness :
    authFw (authConfig (fun _ => none)) reqAlice = (FwOutcome.next, true) :=
  (c9_owner_not_found_allows (fun _ => none) reqAlice (by decide) rfl).1

/-- C3: after the sanitize sweep, every retained file has permissions 0644
and a content classification that exists and matches the allowed pattern
(so no file whose content signature fails the pattern is ever retained,
whatever its name or extension), and conversely every listed file whose
content passes is retained with permissions 0644. -/
theorem c3_sanitize_content_gate (classify : List Nat → Option String)
    (filter : String → Bool) (dir : List FsFile) :
    (∀ g ∈ sanitize classify filter dir,
        g.perm = 0o644
        ∧ (∃ m, classify g.content = some m ∧ filter m = true)
        ∧ ∃ f ∈ dir, g.name = f.name ∧ g.content = f.content)
    ∧ (∀ f ∈ dir, ∀ m, classify f.content = some m → filter m = true →
        { f with perm := 0o644 } ∈ sanitize classify filter dir) := by
  constructor
  · intro g hg
    rw [sanitize, List.mem_filterMap] at hg
    obtain ⟨f, hf, hmap⟩ := hg
    cases hcl : classify f.content with
    | none => simp [hcl] at hmap
    | some m =>
      by_cases hm : filter m = true
      · simp only [hcl, hm, if_true, Option.some_inj] at hmap
        subst hmap
        exact ⟨rfl, ⟨m, hcl, hm⟩, f, hf, rfl, rfl⟩
      · simp [hcl, hm] at hmap
  · intro f hf m hm hfil
    rw [sanitize, List.mem_filterMap]
    exact ⟨f, hf, by simp [hm, hfil]⟩

/-- C3 witness: a file whose bytes classify to an allowed type is retained
with permissions 0644. -/
theorem c3_sanitize_content_gate_witness :
    (FsFile.mk "a.png" [137] 0o644) ∈
      sanitize (fun _ => some "image/png") (fun _ => true)
        [FsFile.mk "a.png" [137] 0] :=
  (c3_sanitize_content_gate (fun _ => some "image/png") (fun _ => true)
      [FsFile.mk "a.png" [137] 0]).2 (FsFile.mk "a.png" [137] 0) (by simp)
    "image/png" rfl rfl

/-- C8 counterexample: on a directory whose single file survives the sweep,
the sanitize function resolves with no value at all — its body has no
return statement — and in particular not with the surviving filename
list. -/
theorem c8_counterexample :
    (sanitize (fun _ => some "image/png") (fun _ => true)
        [FsFile.mk "a.png" [137] 0]).map FsFile.name = ["a.png"]
    ∧ sanitizeReturn (fun _ => some "image/png") (fun _ => true)
        [FsFile.mk "a.png" [137] 0]
      ≠ some ((sanitize (fun _ => some "image/png") (fun _ => true)
          [FsFile.mk "a.png" [137] 0]).map FsFile.name) :=
  ⟨rfl, by simp [sanitizeReturn]⟩

/-- C8 (amended): the sanitize sweep deletes the failing files and keeps the
survivors, but it resolves with no value — the surviving filename list is
not returned to the caller. -/
theorem c8_sanitize_resolves_no_list (classify : List Nat → Option String)
    (filter : String → Bool) (dir : List FsFile) :
    sanitizeReturn classify filter dir = none := rfl

/-- C4: the diskStorage filename callback stores an uploaded file under the
client-supplied original name — here a file whose original name is
`evil.png` is stored as `evil.png`, not under the staged unique name. -/
theorem c4_storage_keeps_originalname :
    storageFilename reqAlice ⟨"evil.png", "u-1"⟩ = "evil.png"
    ∧ storageFilename reqAlice ⟨"evil.png", "u-1"⟩ ≠ "u-1" :=
  ⟨rfl, by decide⟩

/-- C10: every GET route of the recipe router (get all, get by id, get media
by filename) is mounted with no middleware at all, and each of the three
read handlers produces the same result for any two requests that differ
only in their session — reads are independent of the session. -/
theorem c10_reads_session_independent :
    ((recipeRouterRoutes.filter fun r => r.method == "GET").all
        fun r => r.middleware.isEmpty) = true
    ∧ (∀ (fetch : SvcResult) (req : Request) (s1 s2 : Session),
        getAllRecipes fetch { req with session := s1 }
          = getAllRecipes fetch { req with session := s2 })
    ∧ (∀ (fetchById : String → SvcResult) (req : Request) (s1 s2 : Session),
        getRecipeById fetchById { req with session := s1 }
          = getRecipeById fetchById { req with session := s2 })
    ∧ (∀ (fetchMedia : String → String → SvcResult) (req : Request) (s1 s2 : Session),
        getRecipeMedia fetchMedia { req with session := s1 }
          = getRecipeMedia fetchMedia { req with session := s2 }) :=
  ⟨by decide, fun _ _ _ _ => rfl, fun _ _ _ _ => rfl, fun _ _ _ _ => rfl⟩

end RecipeBook
